import Mathlib

/-
Verification of the certificate report pipeline of the telegram-bot-fin
repository (bot.py and worker.py).  The pipeline functions
`create_excel_report`, `generate_summary_message`, `get_certificate_info`
and `_process_file_content` are embedded shallowly below; names follow the
Python source.  Calendar dates are modelled by their ordinal day number
(an integer, as produced by date.toordinal), so date subtraction ".days"
is integer subtraction and date comparison is integer comparison.  The
external libraries (the X.509 parser and the zip container reader) are
modelled at their call boundary: a byte blob is characterised by the
observable outcome of each library call on it.
-/

namespace CertBot

/-- One extracted certificate record: the dict returned by
`get_certificate_info`.  Field names translate the Russian dict keys:
fio = "ФИО", org = "Учреждение", serial = "Серийный номер",
validFrom = "Действителен с", validUntil = "Действителен до",
daysLeft = "Осталось дней". -/
structure CertInfo where
  fio : String
  org : String
  serial : String
  validFrom : Int
  validUntil : Int
  daysLeft : Int
deriving DecidableEq, Repr

/- ---------------------------------------------------------------
   Date rendering: strftime("%d.%m.%Y") on an ordinal day.
   civilFromDays is the standard civil-from-days conversion
   (epoch: day 0 = 1970-01-01, proleptic Gregorian).
   --------------------------------------------------------------- -/

/-- Convert an ordinal day number to (year, month, day). -/
def civilFromDays (z0 : Int) : Int × Int × Int :=
  let z := z0 + 719468
  let era := z.fdiv 146097
  let doe := z - era * 146097
  let yoe := (doe - doe / 1460 + doe / 36524 - doe / 146096) / 365
  let y := yoe + era * 400
  let doy := doe - (365 * yoe + yoe / 4 - yoe / 100)
  let mp := (5 * doy + 2) / 153
  let d := doy - (153 * mp + 2) / 5 + 1
  let m := mp + (if mp < 10 then 3 else -9)
  (if m ≤ 2 then y + 1 else y, m, d)

/-- Zero-pad to two digits (strftime %d / %m). -/
def pad2 (n : Int) : String :=
  if n < 10 then "0" ++ toString n else toString n

/-- Zero-pad to four digits (strftime %Y). -/
def pad4 (n : Int) : String :=
  if n < 10 then "000" ++ toString n
  else if n < 100 then "00" ++ toString n
  else if n < 1000 then "0" ++ toString n
  else toString n

/-- strftime("%d.%m.%Y") on an ordinal day. -/
def fmtDate (z : Int) : String :=
  let c := civilFromDays z
  pad2 c.2.2 ++ "." ++ pad2 c.2.1 ++ "." ++ pad4 c.1

/- ---------------------------------------------------------------
   generate_summary_message (bot.py lines 352-364, worker.py 197-206)
   --------------------------------------------------------------- -/

/-- The chained comparison `0 <= days_left <= user_threshold` used by both
`generate_summary_message` (bot.py line 357) and `create_excel_report`
(bot.py line 326). -/
def isExpiringSoon (days_left threshold : Int) : Bool :=
  decide (0 ≤ days_left ∧ days_left ≤ threshold)

/-- One summary line (bot.py line 358). -/
def summaryLine (c : CertInfo) : String :=
  "👤 " ++ c.fio ++ " — " ++ fmtDate c.validUntil ++
    " (осталось " ++ toString c.daysLeft ++ " дн.)"

/-- Summary heading (bot.py line 361). -/
def summaryHeader (threshold : Int) : String :=
  "⚠️ Скоро истекают (" ++ toString threshold ++ " дней):"

/-- The fixed all-clear sentence (bot.py line 364). -/
def allClearMessage : String :=
  "✅ Сертификатов, истекающих в ближайшее время, не найдено."

/-- The `expiring_soon_certs` list built by the for-loop of
`generate_summary_message` (bot.py lines 354-358). -/
def expiringList (cert_data_list : List CertInfo) (user_threshold : Int) :
    List String :=
  cert_data_list.foldl
    (fun acc c =>
      if isExpiringSoon c.daysLeft user_threshold then acc ++ [summaryLine c]
      else acc)
    []

/-- bot.py lines 352-364 / worker.py lines 197-206. -/
def generate_summary_message (cert_data_list : List CertInfo)
    (user_threshold : Int) : String :=
  let expiring := expiringList cert_data_list user_threshold
  if expiring.isEmpty then allClearMessage
  else String.intercalate "\n" (summaryHeader user_threshold :: expiring)

/- ---------------------------------------------------------------
   create_excel_report (bot.py lines 300-350, worker.py 175-195)
   --------------------------------------------------------------- -/

/-- The three row fill colors RED_FILL / ORANGE_FILL / GREEN_FILL. -/
inductive Fill where
  | red
  | orange
  | green
deriving DecidableEq, Repr

/-- A spreadsheet cell value: openpyxl receives strings and ints here. -/
inductive Cell where
  | str (s : String)
  | int (i : Int)
deriving DecidableEq, Repr

/-- One worksheet row together with the fill applied to its cells. -/
structure SheetRow where
  cells : List Cell
  fill : Option Fill
deriving DecidableEq, Repr

/-- EXCEL_HEADERS (bot.py line 75 / worker.py line 54). -/
def EXCEL_HEADERS : List String :=
  ["ФИО", "Учреждение", "Серийный номер", "Действителен с",
   "Действителен до", "Осталось дней"]

/-- Fill selection for one data row (bot.py lines 324-329). -/
def fillFor (days_left user_threshold : Int) : Fill :=
  if days_left < 0 then Fill.red
  else if 0 ≤ days_left ∧ days_left ≤ user_threshold then Fill.orange
  else Fill.green

/-- The cells of one data row (bot.py lines 310-317). -/
def reportRow (c : CertInfo) : List Cell :=
  [Cell.str c.fio, Cell.str c.org, Cell.str c.serial,
   Cell.str (fmtDate c.validFrom), Cell.str (fmtDate c.validUntil),
   Cell.int c.daysLeft]

/-- The sort key comparison: `sorted(cert_data_list, key=lambda x:
x["Действителен до"])` compares records by their valid-until date. -/
def certLE (a b : CertInfo) : Bool :=
  decide (a.validUntil ≤ b.validUntil)

/-- Python's `sorted` is a stable sort; `List.mergeSort` is the stable sort
with the same comparison, so the two agree (the output of a stable sort is
uniquely determined by the comparison). -/
def sortCerts (cert_data_list : List CertInfo) : List CertInfo :=
  cert_data_list.mergeSort certLE

/-- bot.py lines 300-350 / worker.py 175-195, modelled as the sequence of
worksheet rows produced: the header row followed by one filled data row per
record in sorted order. -/
def create_excel_report (cert_data_list : List CertInfo)
    (user_threshold : Int) : List SheetRow :=
  ⟨EXCEL_HEADERS.map Cell.str, none⟩ ::
    (sortCerts cert_data_list).map
      (fun c => ⟨reportRow c, some (fillFor c.daysLeft user_threshold)⟩)

/- ---------------------------------------------------------------
   Helper lemmas about the summary loop
   --------------------------------------------------------------- -/

theorem expiringList_foldl (l : List CertInfo) (t : Int) (acc : List String) :
    l.foldl
      (fun acc c =>
        if isExpiringSoon c.daysLeft t then acc ++ [summaryLine c] else acc)
      acc
    = acc ++ (l.filter (fun c => isExpiringSoon c.daysLeft t)).map summaryLine := by
  induction l generalizing acc with
  | nil => simp
  | cons c cs ih =>
    simp only [List.foldl_cons, List.filter_cons]
    cases h : isExpiringSoon c.daysLeft t with
    | true => simp [h, ih]
    | false => simp [h, ih]

theorem expiringList_eq (l : List CertInfo) (t : Int) :
    expiringList l t
      = (l.filter (fun c => isExpiringSoon c.daysLeft t)).map summaryLine := by
  simpa [expiringList] using expiringList_foldl l t []

theorem certLE_trans (a b c : CertInfo)
    (h1 : certLE a b) (h2 : certLE b c) : certLE a c := by
  simp only [certLE, decide_eq_true_eq] at h1 h2 ⊢
  omega

theorem certLE_total (a b : CertInfo) : certLE a b || certLE b a := by
  simp only [certLE]
  by_cases h : a.validUntil ≤ b.validUntil
  · simp [h]
  · simp [h]
    omega

/- ---------------------------------------------------------------
   get_certificate_info (bot.py lines 366-399, worker.py 208-220)

   The X.509 library is modelled at its call boundary: a byte blob is
   characterised by what each of the two loaders does with it.  A loader
   either returns a parsed certificate object, raises ValueError
   (malformed input for that encoding), or raises some other exception.
   --------------------------------------------------------------- -/

/-- A parsed certificate object as far as get_certificate_info reads it:
the lists are the subject attribute values returned by
`get_attributes_for_oid` (empty list means indexing `[0]` raises
IndexError), the dates are `not_valid_before.date()` /
`not_valid_after.date()` as ordinal day numbers. -/
structure Cert where
  commonNames : List String
  orgNames : List String
  serialNumber : Int
  notBefore : Int
  notAfter : Int
deriving DecidableEq, Repr

/-- Outcome of one x509 loader call on a given byte blob. -/
inductive LoadResult where
  | ok (c : Cert)
  | valueError
  | otherExc
deriving DecidableEq, Repr

/-- A raw byte blob, characterised by the observable behaviour of
`load_pem_x509_certificate` and `load_der_x509_certificate` on it. -/
structure Bytes where
  pemLoad : LoadResult
  derLoad : LoadResult
deriving DecidableEq, Repr

/-- The inner try/except of get_certificate_info (bot.py lines 369-372):
try PEM; on ValueError try DER.  A non-ValueError exception from the PEM
loader, and any exception from the DER loader, escapes to the outer
handler (bot.py lines 397-399), which returns None. -/
def loadCert (b : Bytes) : Option Cert :=
  match b.pemLoad with
  | LoadResult.ok c => some c
  | LoadResult.valueError =>
    match b.derLoad with
    | LoadResult.ok c => some c
    | LoadResult.valueError => none
    | LoadResult.otherExc => none
  | LoadResult.otherExc => none

/-- The placeholder for missing subject fields (bot.py lines 377, 382). -/
def UNKNOWN : String := "Неизвестно"

/-- Python's `f"{n:X}"`: uppercase hexadecimal, no prefix, a minus sign
for negative values. -/
def intToUpperHex (i : Int) : String :=
  let digits := (Nat.toDigits 16 i.natAbs).map Char.toUpper
  if i < 0 then String.mk ('-' :: digits) else String.mk digits

/-- bot.py lines 366-399 / worker.py 208-220.  `today` is
`datetime.now().date()` at the moment of the call. -/
def get_certificate_info (cert_bytes : Bytes) (today : Int) :
    Option CertInfo :=
  match loadCert cert_bytes with
  | none => none
  | some cert =>
    let subject_common_name :=
      match cert.commonNames with
      | [] => UNKNOWN
      | v :: _ => v
    let organization_name :=
      match cert.orgNames with
      | [] => UNKNOWN
      | v :: _ => v
    let serial_number := intToUpperHex cert.serialNumber
    let valid_from := cert.notBefore
    let valid_until := cert.notAfter
    let days_left := valid_until - today
    some ⟨subject_common_name, organization_name, serial_number,
          valid_from, valid_until, days_left⟩

/- ---------------------------------------------------------------
   _process_file_content (bot.py lines 401-420, worker.py 222-237)
   and the batch loop of process_with_threshold (bot.py lines 780-783)
   --------------------------------------------------------------- -/

/-- ALLOWED_EXTENSIONS (bot.py line 76 / worker.py line 55). -/
def ALLOWED_EXTENSIONS : List String := [".cer", ".crt", ".pem", ".der"]

/-- Python `s.lower()` (ASCII case folding suffices for the extension
checks done here). -/
def lowerStr (s : String) : String := String.mk (s.data.map Char.toLower)

/-- Python `s.endswith(suffix)`. -/
def strEndsWith (s suffix : String) : Bool := suffix.data.isSuffixOf s.data

/-- Python `name.lower().endswith(ALLOWED_EXTENSIONS)` (a tuple argument
means: ends with any of them). -/
def hasAllowedExt (name : String) : Bool :=
  ALLOWED_EXTENSIONS.any (fun ext => strEndsWith (lowerStr name) ext)

/-- The contents of a named input blob, characterised by the observable
behaviour of the two ways the code reads it: opening it as a zip container
(`asZip = none` models zipfile.BadZipFile; otherwise the list of entries
in namelist order, each with the bytes its read() returns) and passing the
raw bytes to the certificate extractor. -/
structure FileBytes where
  asZip : Option (List (String × Bytes))
  asBytes : Bytes
deriving DecidableEq, Repr

/-- The member loop of _process_file_content (bot.py lines 407-412). -/
def processZipEntries (entries : List (String × Bytes)) (today : Int) :
    List CertInfo :=
  entries.foldl
    (fun acc e =>
      if hasAllowedExt e.fst then
        match get_certificate_info e.snd today with
        | some cert_info => acc ++ [cert_info]
        | none => acc
      else acc)
    []

/-- bot.py lines 401-420 / worker.py 222-237. -/
def _process_file_content (file_bytes : FileBytes) (file_name : String)
    (today : Int) : List CertInfo :=
  if strEndsWith (lowerStr file_name) ".zip" then
    match file_bytes.asZip with
    | some entries => processZipEntries entries today
    | none => []
  else if hasAllowedExt file_name then
    match get_certificate_info file_bytes.asBytes today with
    | some cert_info => [cert_info]
    | none => []
  else []

/-- The batch loop of process_with_threshold (bot.py lines 780-783):
`all_certs_data.extend(_process_file_content(...))` over the uploaded
files in order. -/
def processBatch (files : List (String × FileBytes)) (today : Int) :
    List CertInfo :=
  files.foldl
    (fun acc f => acc ++ _process_file_content f.snd f.fst today)
    []

/- ---------------------------------------------------------------
   Helper lemmas about the batch loops
   --------------------------------------------------------------- -/

theorem processZipEntries_foldl (entries : List (String × Bytes))
    (today : Int) (acc : List CertInfo) :
    entries.foldl
      (fun acc e =>
        if hasAllowedExt e.fst then
          match get_certificate_info e.snd today with
          | some cert_info => acc ++ [cert_info]
          | none => acc
        else acc)
      acc
    = acc ++ entries.filterMap
        (fun e =>
          if hasAllowedExt e.fst then get_certificate_info e.snd today
          else none) := by
  induction entries generalizing acc with
  | nil => simp
  | cons e es ih =>
    simp only [List.foldl_cons, List.filterMap_cons]
    cases hx : hasAllowedExt e.fst with
    | false => simp [hx, ih]
    | true =>
      cases hi : get_certificate_info e.snd today with
      | none => simp [hx, hi, ih]
      | some cert_info => simp [hx, hi, ih]

theorem processZipEntries_eq (entries : List (String × Bytes)) (today : Int) :
    processZipEntries entries today
    = entries.filterMap
        (fun e =>
          if hasAllowedExt e.fst then get_certificate_info e.snd today
          else none) := by
  simpa [processZipEntries] using processZipEntries_foldl entries today []

theorem processBatch_foldl (files : List (String × FileBytes)) (today : Int)
    (acc : List CertInfo) :
    files.foldl (fun acc f => acc ++ _process_file_content f.snd f.fst today)
      acc
    = acc ++ files.foldl
        (fun acc f => acc ++ _process_file_content f.snd f.fst today) [] := by
  induction files generalizing acc with
  | nil => simp
  | cons f fs ih =>
    simp only [List.foldl_cons, List.nil_append]
    rw [ih, ih (_process_file_content f.snd f.fst today)]
    simp

theorem processBatch_cons (f : String × FileBytes)
    (fs : List (String × FileBytes)) (today : Int) :
    processBatch (f :: fs) today
    = _process_file_content f.snd f.fst today ++ processBatch fs today := by
  simp only [processBatch, List.foldl_cons, List.nil_append]
  exact processBatch_foldl fs today _

/- ---------------------------------------------------------------
   Claim theorems
   --------------------------------------------------------------- -/

/-- Claim C1: for every record and every threshold > 0, the bucket
assignment used by the report's row fill (and, in the same way, by the
summary's membership test) classifies the record into exactly one of the
three buckets: Expired (red) iff days_remaining < 0, ExpiringSoon
(orange) iff 0 ≤ days_remaining ≤ threshold (both boundaries inclusive),
Valid (green) iff days_remaining > threshold; the partition is total and
mutually exclusive. -/
theorem c1_bucket_partition (d t : Int) (ht : 0 < t) :
    (fillFor d t = Fill.red ↔ d < 0) ∧
    (fillFor d t = Fill.orange ↔ (0 ≤ d ∧ d ≤ t)) ∧
    (fillFor d t = Fill.green ↔ t < d) ∧
    (isExpiringSoon d t = true ↔ fillFor d t = Fill.orange) ∧
    (¬ (d < 0 ∧ 0 ≤ d ∧ d ≤ t)) ∧
    (¬ (d < 0 ∧ t < d)) ∧
    (¬ ((0 ≤ d ∧ d ≤ t) ∧ t < d)) ∧
    (d < 0 ∨ (0 ≤ d ∧ d ≤ t) ∨ t < d) := by
  unfold fillFor isExpiringSoon
  split_ifs with h1 h2 <;>
    refine ⟨?_, ?_, ?_, ?_, ?_, ?_, ?_, ?_⟩ <;> simp_all <;> omega

/-- Witness for C1 at days_remaining = 0, threshold = 30: a record on its
expiry day is ExpiringSoon (orange), not Expired, not Valid. -/
theorem c1_bucket_partition_witness :
    (fillFor 0 30 = Fill.red ↔ (0 : Int) < 0) ∧
    (fillFor 0 30 = Fill.orange ↔ ((0 : Int) ≤ 0 ∧ (0 : Int) ≤ 30)) ∧
    (fillFor 0 30 = Fill.green ↔ (30 : Int) < 0) ∧
    (isExpiringSoon 0 30 = true ↔ fillFor 0 30 = Fill.orange) ∧
    (¬ ((0 : Int) < 0 ∧ (0 : Int) ≤ 0 ∧ (0 : Int) ≤ 30)) ∧
    (¬ ((0 : Int) < 0 ∧ (30 : Int) < 0)) ∧
    (¬ (((0 : Int) ≤ 0 ∧ (0 : Int) ≤ 30) ∧ (30 : Int) < 0)) ∧
    ((0 : Int) < 0 ∨ ((0 : Int) ≤ 0 ∧ (0 : Int) ≤ 30) ∨ (30 : Int) < 0) :=
  c1_bucket_partition 0 30 (by decide)

/-- Claim C6: the extractor tries the PEM loader first; a successful PEM
parse is used with the DER loader never consulted (the result does not
depend on the DER outcome), and the DER loader is consulted exactly when
the PEM loader rejects the input with ValueError. -/
theorem c6_pem_first_der_fallback (c : Cert) (d d1 d2 : LoadResult) :
    loadCert ⟨LoadResult.ok c, d⟩ = some c ∧
    loadCert ⟨LoadResult.otherExc, d1⟩ = loadCert ⟨LoadResult.otherExc, d2⟩ ∧
    loadCert ⟨LoadResult.otherExc, d⟩ = none ∧
    loadCert ⟨LoadResult.valueError, LoadResult.ok c⟩ = some c ∧
    loadCert ⟨LoadResult.valueError, LoadResult.valueError⟩ = none ∧
    loadCert ⟨LoadResult.valueError, LoadResult.otherExc⟩ = none :=
  ⟨rfl, rfl, rfl, rfl, rfl, rfl⟩

/-- Claim C10: on an empty record list the report renderer totals
normally and returns exactly the fixed six-column header row and no data
rows. -/
theorem c10_empty_report_header_only (t : Int) :
    create_excel_report [] t = [⟨EXCEL_HEADERS.map Cell.str, none⟩] ∧
    EXCEL_HEADERS.length = 6 := by
  constructor
  · simp [create_excel_report, sortCerts]
  · rfl

/-- Claim C2: the summary's line list is exactly one line per record in
the ExpiringSoon bucket, in input order, each formatted by `summaryLine`
(name — expiry date — days remaining); no Expired or Valid record
contributes a line.  When the ExpiringSoon set is empty the message is
the fixed all-clear sentence, otherwise the heading followed by the lines
joined with newlines; in particular the empty record list yields the
all-clear sentence. -/
theorem c2_summary_exact (certs : List CertInfo) (t : Int) :
    expiringList certs t
      = (certs.filter (fun c => isExpiringSoon c.daysLeft t)).map summaryLine ∧
    generate_summary_message certs t
      = (if certs.filter (fun c => isExpiringSoon c.daysLeft t) = []
         then allClearMessage
         else String.intercalate "\n"
           (summaryHeader t ::
             (certs.filter (fun c => isExpiringSoon c.daysLeft t)).map
               summaryLine)) ∧
    generate_summary_message [] t = allClearMessage := by
  refine ⟨expiringList_eq certs t, ?_, rfl⟩
  cases hf : certs.filter (fun c => isExpiringSoon c.daysLeft t) with
  | nil => simp [generate_summary_message, expiringList_eq, hf]
  | cons x xs => simp [generate_summary_message, expiringList_eq, hf]

/-- Claim C9: summary lines appear in the relative order of their records
in the input list — the summary is not re-sorted.  Any two ExpiringSoon
records a (earlier in the input) and b (later in the input) produce their
lines in that same order, with no condition on their expiry dates. -/
theorem c9_summary_input_order (l1 l2 l3 : List CertInfo) (a b : CertInfo)
    (t : Int) (ha : isExpiringSoon a.daysLeft t = true)
    (hb : isExpiringSoon b.daysLeft t = true) :
    expiringList (l1 ++ a :: (l2 ++ b :: l3)) t
      = expiringList l1 t ++
          summaryLine a ::
            (expiringList l2 t ++ summaryLine b :: expiringList l3 t) := by
  simp [expiringList_eq, List.filter_append, List.filter_cons, ha, hb]

/-- Witness for C9: the first input record expires later (day 200) than
the second (day 150); both are ExpiringSoon at threshold 30 and the
summary still lists the first one first. -/
theorem c9_summary_input_order_witness :
    expiringList
        ([] ++ (⟨"Первый", "О", "1", 0, 200, 20⟩ : CertInfo) ::
          ([] ++ (⟨"Второй", "О", "2", 0, 150, 10⟩ : CertInfo) :: [])) 30
      = expiringList [] 30 ++
          summaryLine ⟨"Первый", "О", "1", 0, 200, 20⟩ ::
            (expiringList [] 30 ++
              summaryLine ⟨"Второй", "О", "2", 0, 150, 10⟩ ::
                expiringList [] 30) :=
  c9_summary_input_order [] [] [] ⟨"Первый", "О", "1", 0, 200, 20⟩
    ⟨"Второй", "О", "2", 0, 150, 10⟩ 30 (by decide) (by decide)

/-- Claim C3: for every record list the tabular report has exactly the
header row plus one data row per record — the data rows are ordered by a
permutation of the input that is sorted ascending by valid_until — and
the sort is stable: any two records with identical valid_until keep
their relative input order. -/
theorem c3_report_sorted_stable (l : List CertInfo) (t : Int) :
    (sortCerts l).Perm l ∧
    List.Pairwise (fun x y => x.validUntil ≤ y.validUntil) (sortCerts l) ∧
    (∀ a b : CertInfo, [a, b].Sublist l → a.validUntil = b.validUntil →
      [a, b].Sublist (sortCerts l)) ∧
    create_excel_report l t
      = ⟨EXCEL_HEADERS.map Cell.str, none⟩ ::
          (sortCerts l).map
            (fun c => ⟨reportRow c, some (fillFor c.daysLeft t)⟩) := by
  refine ⟨List.mergeSort_perm l certLE, ?_, ?_, rfl⟩
  · exact (List.sorted_mergeSort certLE_trans certLE_total l).imp
      (fun h => by simpa [certLE] using h)
  · intro a b hab heq
    exact List.pair_sublist_mergeSort certLE_trans certLE_total
      (by simp [certLE, heq]) hab

/-- Witness for C3 at a two-record list whose records share the same
valid_until day (100): the sorted report keeps them in input order. -/
theorem c3_report_sorted_stable_witness :
    (sortCerts [(⟨"А", "X", "1", 0, 100, 5⟩ : CertInfo),
                (⟨"Б", "Y", "2", 0, 100, 5⟩ : CertInfo)]).Perm
        [(⟨"А", "X", "1", 0, 100, 5⟩ : CertInfo),
         (⟨"Б", "Y", "2", 0, 100, 5⟩ : CertInfo)] ∧
    List.Pairwise (fun x y => x.validUntil ≤ y.validUntil)
      (sortCerts [(⟨"А", "X", "1", 0, 100, 5⟩ : CertInfo),
                  (⟨"Б", "Y", "2", 0, 100, 5⟩ : CertInfo)]) ∧
    [(⟨"А", "X", "1", 0, 100, 5⟩ : CertInfo),
     (⟨"Б", "Y", "2", 0, 100, 5⟩ : CertInfo)].Sublist
      (sortCerts [(⟨"А", "X", "1", 0, 100, 5⟩ : CertInfo),
                  (⟨"Б", "Y", "2", 0, 100, 5⟩ : CertInfo)]) ∧
    create_excel_report
        [(⟨"А", "X", "1", 0, 100, 5⟩ : CertInfo),
         (⟨"Б", "Y", "2", 0, 100, 5⟩ : CertInfo)] 30
      = ⟨EXCEL_HEADERS.map Cell.str, none⟩ ::
          (sortCerts [(⟨"А", "X", "1", 0, 100, 5⟩ : CertInfo),
                      (⟨"Б", "Y", "2", 0, 100, 5⟩ : CertInfo)]).map
            (fun c => ⟨reportRow c, some (fillFor c.daysLeft 30)⟩) := by
  obtain ⟨h1, h2, h3, h4⟩ :=
    c3_report_sorted_stable
      [(⟨"А", "X", "1", 0, 100, 5⟩ : CertInfo),
       (⟨"Б", "Y", "2", 0, 100, 5⟩ : CertInfo)] 30
  exact ⟨h1, h2,
    h3 ⟨"А", "X", "1", 0, 100, 5⟩ ⟨"Б", "Y", "2", 0, 100, 5⟩
      (List.Sublist.refl _) rfl, h4⟩

/- Concrete fixtures used by the witnesses below. -/

/-- A blob both loaders reject as malformed. -/
def badBytes : Bytes := ⟨LoadResult.valueError, LoadResult.valueError⟩

/-- A parsed certificate with a common name, no organization attribute,
serial 255, valid from day 100 to day 130. -/
def sampleCert : Cert := ⟨["Иван Иванов"], [], 255, 100, 130⟩

/-- A blob whose PEM load succeeds with sampleCert. -/
def okBytes : Bytes := ⟨LoadResult.ok sampleCert, LoadResult.valueError⟩

/-- A named certificate file whose bytes fail extraction. -/
def sampleFile : String × FileBytes := ("y.cer", ⟨some [], badBytes⟩)

/-- Claim C4: when extraction fails the extractor yields the explicit
no-record result (None) instead of an exception; a failing archive entry
is skipped without affecting the records of the remaining entries, and
the batch loop always processes the remaining files of the batch
independently of the current file's outcome. -/
theorem c4_extraction_failure_skipped (b : Bytes) (today : Int)
    (hb : loadCert b = none) (ename : String) (es : List (String × Bytes))
    (f : String × FileBytes) (fs : List (String × FileBytes)) :
    get_certificate_info b today = none ∧
    processZipEntries ((ename, b) :: es) today = processZipEntries es today ∧
    processBatch (f :: fs) today
      = _process_file_content f.snd f.fst today ++ processBatch fs today := by
  have hinfo : get_certificate_info b today = none := by
    unfold get_certificate_info
    rw [hb]
  refine ⟨hinfo, ?_, processBatch_cons f fs today⟩
  rw [processZipEntries_eq, processZipEntries_eq, List.filterMap_cons]
  cases hx : hasAllowedExt ename with
  | false => simp [hx]
  | true => simp [hx, hinfo]

/-- Witness for C4: a blob rejected by both loaders yields None, its
archive entry contributes nothing, and the batch recursion is
unaffected. -/
theorem c4_extraction_failure_skipped_witness :
    get_certificate_info badBytes 0 = none ∧
    processZipEntries [("x.cer", badBytes)] 0 = processZipEntries [] 0 ∧
    processBatch [sampleFile] 0
      = _process_file_content sampleFile.snd sampleFile.fst 0 ++
          processBatch [] 0 :=
  c4_extraction_failure_skipped badBytes 0 rfl "x.cer" [] sampleFile []

/-- Claim C5: a name that indicates a zip archive whose bytes are not a
readable zip container yields zero records and no error, and the rest of
the batch is still processed. -/
theorem c5_corrupt_zip_zero_records (file_name : String) (fb : FileBytes)
    (today : Int) (fs : List (String × FileBytes))
    (hzip : strEndsWith (lowerStr file_name) ".zip" = true)
    (hbad : fb.asZip = none) :
    _process_file_content fb file_name today = [] ∧
    processBatch ((file_name, fb) :: fs) today = processBatch fs today := by
  have h1 : _process_file_content fb file_name today = [] := by
    simp [_process_file_content, hzip, hbad]
  refine ⟨h1, ?_⟩
  rw [processBatch_cons]
  simpa using h1.symm ▸ rfl

/-- Witness for C5: a corrupt archive named "archive.zip" in a two-file
batch contributes nothing while the batch goes on. -/
theorem c5_corrupt_zip_zero_records_witness :
    _process_file_content ⟨none, badBytes⟩ "archive.zip" 0 = [] ∧
    processBatch (("archive.zip", ⟨none, badBytes⟩) :: [sampleFile]) 0
      = processBatch [sampleFile] 0 :=
  c5_corrupt_zip_zero_records "archive.zip" ⟨none, badBytes⟩ 0 [sampleFile]
    (by decide) rfl

/-- A parsed certificate with an organization but no common-name
attribute (missing subject display-name). -/
def noCNCert : Cert := ⟨[], ["Организация"], 10, 50, 60⟩

/-- A blob rejected by the PEM loader as malformed whose DER load
succeeds with noCNCert. -/
def noCNBytes : Bytes := ⟨LoadResult.valueError, LoadResult.ok noCNCert⟩

/-- Claim C7: every certificate that parses successfully yields a record,
whatever optional subject attributes it lacks: the display-name field is
the first common-name attribute, or the fixed placeholder when there is
none, the organization field is the first organization attribute, or the
fixed placeholder when there is none, and the remaining fields are
populated normally from the certificate. -/
theorem c7_missing_field_placeholder (b : Bytes) (c : Cert) (today : Int)
    (hload : loadCert b = some c) :
    get_certificate_info b today
      = some ⟨c.commonNames.headD UNKNOWN, c.orgNames.headD UNKNOWN,
              intToUpperHex c.serialNumber, c.notBefore, c.notAfter,
              c.notAfter - today⟩ := by
  unfold get_certificate_info
  rw [hload]
  cases hc : c.commonNames <;> cases ho : c.orgNames <;> simp [hc, ho]

/-- Witness for C7: sampleCert lacks the organization attribute, noCNCert
lacks the display-name attribute; both extractions succeed with the
placeholder in exactly the missing field. -/
theorem c7_missing_field_placeholder_witness :
    get_certificate_info okBytes 110
      = some ⟨sampleCert.commonNames.headD UNKNOWN,
              sampleCert.orgNames.headD UNKNOWN,
              intToUpperHex sampleCert.serialNumber, sampleCert.notBefore,
              sampleCert.notAfter, sampleCert.notAfter - 110⟩ ∧
    get_certificate_info noCNBytes 55
      = some ⟨noCNCert.commonNames.headD UNKNOWN,
              noCNCert.orgNames.headD UNKNOWN,
              intToUpperHex noCNCert.serialNumber, noCNCert.notBefore,
              noCNCert.notAfter, noCNCert.notAfter - 55⟩ :=
  ⟨c7_missing_field_placeholder okBytes sampleCert 110 rfl,
   c7_missing_field_placeholder noCNBytes noCNCert 55 rfl⟩

/-- Claim C8: every successfully extracted record has
days_remaining = valid_until − today for the "today" of that very call,
so the value is recomputed fresh per extraction: two extractions of the
same bytes with different days differ by exactly the day difference while
agreeing on valid_until. -/
theorem c8_days_remaining_fresh (b : Bytes) (t1 t2 : Int) (r1 r2 : CertInfo)
    (h1 : get_certificate_info b t1 = some r1)
    (h2 : get_certificate_info b t2 = some r2) :
    r1.daysLeft = r1.validUntil - t1 ∧
    r2.daysLeft = r2.validUntil - t2 ∧
    r1.validUntil = r2.validUntil ∧
    r1.daysLeft - r2.daysLeft = t2 - t1 := by
  unfold get_certificate_info at h1 h2
  cases hl : loadCert b with
  | none =>
    rw [hl] at h1
    simp at h1
  | some c =>
    rw [hl] at h1 h2
    have e1 := Option.some.inj h1
    have e2 := Option.some.inj h2
    subst e1
    subst e2
    refine ⟨rfl, rfl, rfl, ?_⟩
    show (c.notAfter - t1) - (c.notAfter - t2) = t2 - t1
    omega

/-- Witness for C8: the same blob extracted on day 100 and on day 110
gives days_remaining 30 and 20 for the same valid_until day 130. -/
theorem c8_days_remaining_fresh_witness :
    (⟨"Иван Иванов", UNKNOWN, intToUpperHex 255, 100, 130, 30⟩ :
        CertInfo).daysLeft
      = (⟨"Иван Иванов", UNKNOWN, intToUpperHex 255, 100, 130, 30⟩ :
          CertInfo).validUntil - 100 ∧
    (⟨"Иван Иванов", UNKNOWN, intToUpperHex 255, 100, 130, 20⟩ :
        CertInfo).daysLeft
      = (⟨"Иван Иванов", UNKNOWN, intToUpperHex 255, 100, 130, 20⟩ :
          CertInfo).validUntil - 110 ∧
    (⟨"Иван Иванов", UNKNOWN, intToUpperHex 255, 100, 130, 30⟩ :
        CertInfo).validUntil
      = (⟨"Иван Иванов", UNKNOWN, intToUpperHex 255, 100, 130, 20⟩ :
          CertInfo).validUntil ∧
    (⟨"Иван Иванов", UNKNOWN, intToUpperHex 255, 100, 130, 30⟩ :
          CertInfo).daysLeft -
        (⟨"Иван Иванов", UNKNOWN, intToUpperHex 255, 100, 130, 20⟩ :
          CertInfo).daysLeft
      = 110 - 100 :=
  c8_days_remaining_fresh okBytes 100 110
    ⟨"Иван Иванов", UNKNOWN, intToUpperHex 255, 100, 130, 30⟩
    ⟨"Иван Иванов", UNKNOWN, intToUpperHex 255, 100, 130, 20⟩ rfl rfl

end CertBot
